import Mathlib

/-!
Shallow embedding of the libsql replication/dispatch layer, covering:
- the vendored sqlite3 parser context (`src/vendored/sqlite3-parser/src/parser/mod.rs`),
- the client-facing `Database` (`src/libsql/src/database.rs`),
- the server-side `Database`/`Connection` tagged unions
  (`src/libsql-server/src/database/mod.rs`).

Rust `&mut self` methods become state-passing Lean functions; fallible
operations return `Except`; a possible runtime abort from `unwrap` on an
absent option is modelled by an outer `Option` layer (`none` = abort).
-/

namespace Sqlite3Parser

/-- Parser error enum from `parser/mod.rs`: the four failure kinds of the
vendored SQL parser. `SyntaxError` carries the offending token type (a static
string in the source) and the optionally-found text; `Custom` carries a
message string. -/
inductive ParserError where
  | StackOverflow : ParserError
  | SyntaxError (token_type : String) (found : Option String) : ParserError
  | UnexpectedEof : ParserError
  | Custom (msg : String) : ParserError
deriving DecidableEq, Repr

/-- Display text for a parser error, mirroring the `Display` impl. -/
def ParserError.displayText : ParserError → String
  | .StackOverflow => "parser overflowed its stack"
  | .SyntaxError token_type _ => "near " ++ token_type ++ ": syntax error"
  | .UnexpectedEof => "unexpected end of input"
  | .Custom s => s

/-- Modelled from the spec: the abstract syntax tree statement produced by the
external grammar (`ast` module is not under `src/`); the payload is opaque to
the parser context, so it is represented by an identifier. -/
structure Stmt where
  id : Nat
deriving DecidableEq, Repr

/-- Modelled from the spec: an identifier name from the `ast` module (not under
`src/`); opaque payload. -/
structure Name where
  s : String
deriving DecidableEq, Repr

/-- Modelled from the spec: the explain kind from the `ast` module (not under
`src/`), as consumed by `Context.cmd`: plain EXPLAIN or EXPLAIN QUERY PLAN. -/
inductive ExplainKind where
  | Explain : ExplainKind
  | QueryPlan : ExplainKind
deriving DecidableEq, Repr

/-- Modelled from the spec: the command type from the `ast` module (not under
`src/`), with the three constructors produced by `Context.cmd`. -/
inductive Cmd where
  | Explain (s : Stmt) : Cmd
  | ExplainQueryPlan (s : Stmt) : Cmd
  | Stmt (s : Stmt) : Cmd
deriving DecidableEq, Repr

/-- Parser context from `parser/mod.rs`. The `input` byte slice is a list of
bytes; all other fields mirror the Rust struct. -/
structure Context where
  input : List Nat
  explain : Option ExplainKind
  stmt : Option Stmt
  constraint_name : Option Name
  module_arg : Option (Nat × Nat)
  module_args : Option (List String)
  done : Bool
  error : Option ParserError

/-- Constructor `Context::new`. -/
def Context.new (input : List Nat) : Context :=
  { input := input
    explain := none
    stmt := none
    constraint_name := none
    module_arg := none
    module_args := none
    done := false
    error := none }

/-- Method `Context::cmd` (consuming, `&mut self`): take the pending statement
if present, take the explain kind, and wrap accordingly; otherwise return
`none` leaving the context unchanged. -/
def Context.cmd (c : Context) : Option Cmd × Context :=
  match c.stmt with
  | some stmt =>
    match c.explain with
    | some ExplainKind.Explain =>
      (some (Cmd.Explain stmt), { c with stmt := none, explain := none })
    | some ExplainKind.QueryPlan =>
      (some (Cmd.ExplainQueryPlan stmt), { c with stmt := none, explain := none })
    | none =>
      (some (Cmd.Stmt stmt), { c with stmt := none, explain := none })
  | none => (none, c)

/-- Method `Context::constraint_name` (consuming take). -/
def Context.constraintNameTake (c : Context) : Option Name × Context :=
  (c.constraint_name, { c with constraint_name := none })

/-- Method `Context::no_constraint_name`. -/
def Context.no_constraint_name (c : Context) : Bool :=
  c.constraint_name.isNone

/-- Method `Context::sqlite3_finish_coding`: mark parsing of one statement
finished. -/
def Context.sqlite3_finish_coding (c : Context) : Context :=
  { c with done := true }

/-- Method `Context::done`: true when the parser completed either successfully
or with an error. (The source method shares its name with the `done` field;
Lean requires a distinct name for the projection, hence `isDone`.) -/
def Context.isDone (c : Context) : Bool :=
  c.done || c.error.isSome

/-- Method `Context::is_ok`. -/
def Context.is_ok (c : Context) : Bool :=
  c.error.isNone

/-- Method `Context::error` (consuming take of the stored parser error; named
`errorTake` because `error` is the field projection). -/
def Context.errorTake (c : Context) : Option ParserError × Context :=
  (c.error, { c with error := none })

/-- Method `Context::reset`: clear every field except the input slice. -/
def Context.reset (c : Context) : Context :=
  { c with
    explain := none
    stmt := none
    constraint_name := none
    module_arg := none
    module_args := none
    done := false
    error := none }

end Sqlite3Parser

namespace LibsqlClient

/-- Client error type (`crate::Error`): the claims only need the
backend-unsupported-operation constructor `SyncNotSupported` carrying the
debug-formatted database type; every other error is collapsed into `Other`. -/
inductive Error where
  | SyncNotSupported (msg : String) : Error
  | Other (msg : String) : Error
deriving DecidableEq, Repr

/-- Modelled from the spec: one page-sized mutation of a committed transaction
(sequence number, page number, page payload bytes, commit-boundary marker). -/
structure Frame where
  frame_no : Nat
  page_no : Nat
  payload : List Nat
  is_commit : Bool
deriving DecidableEq, Repr

/-- Modelled from the spec: a frames-batch (`crate::replication::Frames`, not
under `src/`), the ordered unit handed to the frame applier in one call. -/
structure Frames where
  frames : List Frame
deriving DecidableEq, Repr

/-- Modelled from the spec: the replication writer handle cloned by the
synced-local `connect` path (not under `src/`); opaque payload. -/
structure Writer where
  id : Nat
deriving DecidableEq, Repr

/-- Modelled from the spec: an embedded-engine (local) connection handle (not
under `src/`). Its `writer()` accessor returns the replication writer when the
local database was opened with sync support, absent otherwise. -/
structure LocalConn where
  id : Nat
  writer : Option Writer
deriving DecidableEq, Repr

/-- Modelled from the spec: `crate::local::Database` (not under `src/`), the
local on-disk database wrapped by the Synced-Local variant. Its fallible
operations are represented by their outcomes: `syncRes` is the result of one
`sync()` call (count of applied frames or an error), `syncFramesRes` the
result of applying a given frames-batch, `connectRes` the result of opening a
local connection. -/
structure LocalDatabase where
  syncRes : Except Error Nat
  syncFramesRes : Frames → Except Error Nat
  connectRes : Except Error LocalConn

/-- Open flags bitflags over the underlying engine's open constants. -/
structure OpenFlags where
  bits : Nat
deriving DecidableEq, Repr

/-- `SQLITE_OPEN_READONLY`. -/
def OpenFlags.SQLITE_OPEN_READ_ONLY : OpenFlags := ⟨1⟩

/-- `SQLITE_OPEN_READWRITE`. -/
def OpenFlags.SQLITE_OPEN_READ_WRITE : OpenFlags := ⟨2⟩

/-- `SQLITE_OPEN_CREATE`. -/
def OpenFlags.SQLITE_OPEN_CREATE : OpenFlags := ⟨4⟩

/-- Bitwise union of two flag sets (the `|` operator of the bitflags type). -/
def OpenFlags.or (a b : OpenFlags) : OpenFlags := ⟨Nat.lor a.bits b.bits⟩

/-- The `Default` impl for `OpenFlags`: read-write plus create. -/
def OpenFlags.default : OpenFlags :=
  OpenFlags.or OpenFlags.SQLITE_OPEN_READ_WRITE OpenFlags.SQLITE_OPEN_CREATE

/-- The `DbType` enum from `src/libsql/src/database.rs`. The `Remote` variant's
connector service is opaque and represented by an identifier. -/
inductive DbType where
  | Memory : DbType
  | File (path : String) (flags : OpenFlags) : DbType
  | Sync (db : LocalDatabase) : DbType
  | Remote (url : String) (auth_token : String) (connector : Nat) : DbType

/-- The `Debug` impl for `DbType` (used to build `SyncNotSupported` messages). -/
def DbType.debugFmt : DbType → String
  | .Memory => "Memory"
  | .File _ _ => "File"
  | .Sync _ => "Sync"
  | .Remote _ _ _ => "Remote"

/-- Discriminator: is this the Synced-Local (`Sync`) variant? -/
def DbType.isSync : DbType → Bool
  | .Sync _ => true
  | _ => false

/-- The client-facing `Database` struct: a `db_type` tag fixed at
construction. -/
structure Database where
  db_type : DbType

/-- `Database::open_in_memory`. -/
def Database.open_in_memory : Except Error Database :=
  Except.ok { db_type := DbType.Memory }

/-- `Database::open_with_flags`. -/
def Database.open_with_flags (db_path : String) (flags : OpenFlags) :
    Except Error Database :=
  Except.ok { db_type := DbType.File db_path flags }

/-- `Database::open` (named `openPath` because `open` is a Lean keyword):
delegates to `open_with_flags` with the default flags. -/
def Database.openPath (db_path : String) : Except Error Database :=
  Database.open_with_flags db_path OpenFlags.default

/-- `Database::open_with_local_sync`, exactly as written in the source: it
constructs a `File` database type (not a `Sync` one). -/
def Database.open_with_local_sync (db_path : String) : Except Error Database :=
  Except.ok { db_type := DbType.File db_path OpenFlags.default }

/-- `Database::sync` (`&self` receiver, so the database value is returned
unchanged): dispatch to the wrapped sync client for the `Sync` variant,
otherwise return `SyncNotSupported` built from the debug format of the
database type. No branch can abort. -/
def Database.sync (db : Database) : Except Error Nat × Database :=
  match db.db_type with
  | DbType.Sync d => (d.syncRes, db)
  | t => (Except.error (Error.SyncNotSupported t.debugFmt), db)

/-- `Database::sync_frames` (`&self` receiver): same dispatch shape as
`sync`, applied to a frames-batch. -/
def Database.sync_frames (db : Database) (frames : Frames) :
    Except Error Nat × Database :=
  match db.db_type with
  | DbType.Sync d => (d.syncFramesRes frames, db)
  | t => (Except.error (Error.SyncNotSupported t.debugFmt), db)

/-- The client `Connection`'s concrete implementation, one per backend:
a plain local connection (`LibsqlConnection`), the synced-local
`RemoteConnection` layering remote-frame application over a local connection
and its writer, or the remote `hrana` client. -/
inductive ConnImpl where
  | Libsql (conn : LocalConn) : ConnImpl
  | SyncedRemote (localConn : LocalConn) (writer : Writer) : ConnImpl
  | Hrana (url : String) (auth_token : String) : ConnImpl

/-- The client `Connection` wrapper struct. -/
structure Connection where
  conn : ConnImpl

/-- Modelled from the spec: the environment of external collaborators used by
`connect` — `crate::local::Database::open` (not under `src/`), which opens the
embedded engine at a path with flags and can fail on I/O. -/
structure LocalEnv where
  localOpen : String → OpenFlags → Except Error LocalDatabase

/-- `Database::connect`: build the connection implementation determined by
`db_type`. The outer `Option` models a runtime abort: the `Sync` branch calls
`unwrap` on the local connection's writer, so an absent writer aborts
(`none`); every other branch returns `some`. Errors from opening the local
database or connection propagate as `some (Except.error e)`. -/
def Database.connect (env : LocalEnv) (db : Database) :
    Option (Except Error Connection) :=
  match db.db_type with
  | DbType.Memory =>
    match env.localOpen ":memory:" OpenFlags.default with
    | Except.error e => some (Except.error e)
    | Except.ok ldb =>
      match ldb.connectRes with
      | Except.error e => some (Except.error e)
      | Except.ok conn => some (Except.ok { conn := ConnImpl.Libsql conn })
  | DbType.File path flags =>
    match env.localOpen path flags with
    | Except.error e => some (Except.error e)
    | Except.ok ldb =>
      match ldb.connectRes with
      | Except.error e => some (Except.error e)
      | Except.ok conn => some (Except.ok { conn := ConnImpl.Libsql conn })
  | DbType.Sync d =>
    match d.connectRes with
    | Except.error e => some (Except.error e)
    | Except.ok conn =>
      match conn.writer with
      | none => none
      | some w => some (Except.ok { conn := ConnImpl.SyncedRemote conn w })
  | DbType.Remote url auth_token _ =>
    some (Except.ok { conn := ConnImpl.Hrana url auth_token })

/-- The observable kind of a client connection implementation. -/
inductive ConnKind where
  | Local : ConnKind
  | Synced : ConnKind
  | Hrana : ConnKind
deriving DecidableEq, Repr

/-- Kind of a connection implementation. -/
def ConnImpl.kind : ConnImpl → ConnKind
  | .Libsql _ => ConnKind.Local
  | .SyncedRemote _ _ => ConnKind.Synced
  | .Hrana _ _ => ConnKind.Hrana

/-- Spec-side mapping for the refinement claim: the connection implementation
each database type is specified to produce (Memory and File use a plain local
connection, Sync layers remote-frame application over a local connection,
Remote uses the remote client). -/
def DbType.expectedKind : DbType → ConnKind
  | .Memory => ConnKind.Local
  | .File _ _ => ConnKind.Local
  | .Sync _ => ConnKind.Synced
  | .Remote _ _ _ => ConnKind.Hrana

end LibsqlClient

namespace SqldServer

/-- Replication frame number (`FrameNo`): unsigned 64-bit sequence number. -/
abbrev FrameNo := Nat

/-- Server-side error (`anyhow`-style, carried by `crate::Result`); opaque
message. -/
abbrev SrvErr := String

/-- A `watch` receiver: always observes the current latest value of the
single-slot broadcast cell (`Option FrameNo`, none before any commit). -/
structure WatchReceiver where
  current : Option FrameNo
deriving DecidableEq, Repr

/-- Modelled from the spec: the latest-sequence notifier's sender side (not
under `src/`); `subscribe` hands out a receiver observing the current value. -/
structure NotifierSender where
  current : Option FrameNo
deriving DecidableEq, Repr

/-- `subscribe()` on the notifier sender: a fresh receiver immediately
observes the current value. -/
def NotifierSender.subscribe (s : NotifierSender) : WatchReceiver :=
  { current := s.current }

/-- Modelled from the spec: the frame log (`ReplicationLogger`, not under
`src/`); the claims only need its latest-sequence notifier. -/
structure ReplicationLogger where
  new_frame_notifier : NotifierSender
deriving DecidableEq, Repr

/-- Modelled from the spec: the write-interceptor wrapper around the WAL (not
under `src/`); its `wrapper()` accessor is the inner wrapper and `logger()`
the frame log it feeds. -/
structure WalWrapperInner where
  logger : ReplicationLogger
deriving DecidableEq, Repr

/-- Outer WAL wrapper handle held by the primary/schema databases. -/
structure WalWrapper where
  wrapper : WalWrapperInner
deriving DecidableEq, Repr

/-- Modelled from the spec: the background snapshot replicator (external
collaborator); opaque payload. -/
structure Replicator where
  id : Nat
deriving DecidableEq, Repr

/-- The guarded optional replicator handle
(`Arc<Mutex<Option<Replicator>>>`); the lock itself has no sequential
content, so the handle is modelled by the optional resource it guards. -/
structure ReplicatorCell where
  inner : Option Replicator
deriving DecidableEq, Repr

/-- Program to execute: a pre-compiled sequence of statements (opaque). -/
structure Program where
  stmts : List String
deriving DecidableEq, Repr

/-- Request context (opaque payload). -/
structure RequestContext where
  id : Nat
deriving DecidableEq, Repr

/-- Describe response: statement shape metadata (opaque payload). -/
structure DescribeResponse where
  params : List String
deriving DecidableEq, Repr

/-- Raw embedded-engine connection handle exposed by `with_raw` (opaque). -/
structure RawConn where
  id : Nat
deriving DecidableEq, Repr

/-- Modelled from the spec: the capability interface implemented by every
backend connection (the per-variant implementations are not under `src/`).
Each trait operation is represented by its outcome function; `B` is the
query-result-builder type parameter of `execute_program`, `R` the result type
of the `with_raw` closure. -/
structure ConnOps (B R : Type) where
  execute_program : Program → RequestContext → B → Option FrameNo → Except SrvErr B
  describe : String → RequestContext → Option FrameNo →
    Except SrvErr (Except SrvErr DescribeResponse)
  is_autocommit : Except SrvErr Bool
  checkpoint : Except SrvErr Unit
  vacuum_if_needed : Except SrvErr Unit
  diagnostics : String
  with_raw : (RawConn → R) → R

/-- A primary backend connection (implementation not under `src/`). -/
structure PrimaryConnection (B R : Type) where
  ops : ConnOps B R

/-- A replica backend connection (implementation not under `src/`). -/
structure ReplicaConnection (B R : Type) where
  ops : ConnOps B R

/-- A schema backend connection over a primary connection (implementation not
under `src/`). -/
structure SchemaConnection (B R : Type) where
  ops : ConnOps B R

/-- The server `Connection` tagged union from
`src/libsql-server/src/database/mod.rs`. -/
inductive Connection (B R : Type) where
  | Primary (conn : PrimaryConnection B R) : Connection B R
  | Replica (conn : ReplicaConnection B R) : Connection B R
  | Schema (conn : SchemaConnection B R) : Connection B R

/-- The `Debug` impl for the server `Connection`. -/
def Connection.debugFmt {B R : Type} : Connection B R → String
  | .Primary _ => "Primary"
  | .Replica _ => "Replica"
  | .Schema _ => "Schema"

/-- `Connection::is_primary`. -/
def Connection.is_primary {B R : Type} : Connection B R → Bool
  | .Primary _ => true
  | _ => false

/-- Trait dispatch of `execute_program`: pick the variant, delegate with
identical arguments. -/
def Connection.execute_program {B R : Type} (c : Connection B R)
    (pgm : Program) (ctx : RequestContext) (response_builder : B)
    (replication_index : Option FrameNo) : Except SrvErr B :=
  match c with
  | .Primary conn => conn.ops.execute_program pgm ctx response_builder replication_index
  | .Replica conn => conn.ops.execute_program pgm ctx response_builder replication_index
  | .Schema conn => conn.ops.execute_program pgm ctx response_builder replication_index

/-- Trait dispatch of `describe`. -/
def Connection.describe {B R : Type} (c : Connection B R) (sql : String)
    (ctx : RequestContext) (replication_index : Option FrameNo) :
    Except SrvErr (Except SrvErr DescribeResponse) :=
  match c with
  | .Primary conn => conn.ops.describe sql ctx replication_index
  | .Replica conn => conn.ops.describe sql ctx replication_index
  | .Schema conn => conn.ops.describe sql ctx replication_index

/-- Trait dispatch of `is_autocommit`. -/
def Connection.is_autocommit {B R : Type} (c : Connection B R) :
    Except SrvErr Bool :=
  match c with
  | .Primary conn => conn.ops.is_autocommit
  | .Replica conn => conn.ops.is_autocommit
  | .Schema conn => conn.ops.is_autocommit

/-- Trait dispatch of `checkpoint`. -/
def Connection.checkpoint {B R : Type} (c : Connection B R) :
    Except SrvErr Unit :=
  match c with
  | .Primary conn => conn.ops.checkpoint
  | .Replica conn => conn.ops.checkpoint
  | .Schema conn => conn.ops.checkpoint

/-- Trait dispatch of `vacuum_if_needed`. -/
def Connection.vacuum_if_needed {B R : Type} (c : Connection B R) :
    Except SrvErr Unit :=
  match c with
  | .Primary conn => conn.ops.vacuum_if_needed
  | .Replica conn => conn.ops.vacuum_if_needed
  | .Schema conn => conn.ops.vacuum_if_needed

/-- Trait dispatch of `diagnostics`: returns a plain `String`, with no error
branch in its type. -/
def Connection.diagnostics {B R : Type} (c : Connection B R) : String :=
  match c with
  | .Primary conn => conn.ops.diagnostics
  | .Replica conn => conn.ops.diagnostics
  | .Schema conn => conn.ops.diagnostics

/-- Trait dispatch of `with_raw`: scoped access to the raw engine handle. -/
def Connection.with_raw {B R : Type} (c : Connection B R)
    (f : RawConn → R) : R :=
  match c with
  | .Primary conn => conn.ops.with_raw f
  | .Replica conn => conn.ops.with_raw f
  | .Schema conn => conn.ops.with_raw f

/-- The `diagnostics` dispatch placed in the fallible-result shape shared by
the other capability operations; since the source trait method returns a
plain `String`, the only possible outcome is `Except.ok`. -/
def Connection.diagnosticsResult {B R : Type} (c : Connection B R) :
    Except SrvErr String :=
  Except.ok c.diagnostics

/-- The primary server database. Its connection maker (not under `src/`) is
represented by the outcome of one `create()` call; `replicator()` (not under
`src/`) by its returned optional handle. -/
structure PrimaryDatabase (B R : Type) where
  wal_wrapper : WalWrapper
  block_writes : Bool
  replicator_res : Option ReplicatorCell
  make : Except SrvErr (PrimaryConnection B R)

/-- The replica server database; its maker is represented by the outcome of
one `create()` call. -/
structure ReplicaDatabase (B R : Type) where
  make : Except SrvErr (ReplicaConnection B R)

/-- The schema server database: its WAL wrapper is optional in the source
(`logger()` unwraps it), the latest-frame notifier is a stored receiver, and
the maker is represented by the outcome of one `create()` call. -/
structure SchemaDatabase (B R : Type) where
  wal_wrapper : Option WalWrapper
  new_frame_notifier : WatchReceiver
  replicator_res : Option ReplicatorCell
  make : Except SrvErr (SchemaConnection B R)

/-- Modelled from the spec: a Schema database is built on the same
frame-logging mechanism as Primary and produces a frame log, so its WAL
wrapper is present. -/
def SchemaDatabase.wf {B R : Type} (s : SchemaDatabase B R) : Prop :=
  s.wal_wrapper.isSome = true

/-- The server `Database` tagged union. -/
inductive Database (B R : Type) where
  | Primary (db : PrimaryDatabase B R) : Database B R
  | Replica (db : ReplicaDatabase B R) : Database B R
  | Schema (db : SchemaDatabase B R) : Database B R

/-- The `Debug` impl for the server `Database`. -/
def Database.debugFmt {B R : Type} : Database B R → String
  | .Primary _ => "Primary"
  | .Replica _ => "Replica"
  | .Schema _ => "Schema"

/-- `Database::is_primary`. -/
def Database.is_primary {B R : Type} : Database B R → Bool
  | .Primary _ => true
  | _ => false

/-- `Database::is_schema`. -/
def Database.is_schema {B R : Type} : Database B R → Bool
  | .Schema _ => true
  | _ => false

/-- `Database::connection_maker`: wrap each variant's maker output in the
matching `Connection` constructor (the `.map(Connection::Primary)` and
friends of the source). -/
def Database.connection_maker {B R : Type} :
    Database B R → Except SrvErr (Connection B R)
  | .Primary db => db.make.map Connection.Primary
  | .Replica db => db.make.map Connection.Replica
  | .Schema db => db.make.map Connection.Schema

/-- `Database::logger`: the frame log for Primary, `none` for Replica, and
for Schema the source unwraps the optional WAL wrapper — the outer `Option`
layer models that unwrap (`none` = runtime abort on an absent wrapper). -/
def Database.logger {B R : Type} :
    Database B R → Option (Option ReplicationLogger)
  | .Primary p => some (some p.wal_wrapper.wrapper.logger)
  | .Replica _ => some none
  | .Schema s =>
    match s.wal_wrapper with
    | some w => some (some w.wrapper.logger)
    | none => none

/-- `Database::block_writes`: the shared write-block flag, Primary only. -/
def Database.block_writes {B R : Type} : Database B R → Option Bool
  | .Primary p => some p.block_writes
  | _ => none

/-- `Database::notifier`: a latest-sequence subscription for Primary (fresh
`subscribe()` on the frame log's sender) and Schema (its stored receiver),
`none` for Replica; no branch can abort. -/
def Database.notifier {B R : Type} : Database B R → Option WatchReceiver
  | .Primary p => some (p.wal_wrapper.wrapper.logger.new_frame_notifier.subscribe)
  | .Replica _ => none
  | .Schema s => some s.new_frame_notifier

/-- `Database::replicator`: delegate to the variant's own accessor for
Primary and Schema, `none` for Replica. -/
def Database.replicator {B R : Type} : Database B R → Option ReplicatorCell
  | .Primary db => db.replicator_res
  | .Replica _ => none
  | .Schema db => db.replicator_res

/-- Variant tags of the server tagged unions. -/
inductive VariantTag where
  | Primary : VariantTag
  | Replica : VariantTag
  | Schema : VariantTag
deriving DecidableEq, Repr

/-- Tag of a server database. -/
def Database.tag {B R : Type} : Database B R → VariantTag
  | .Primary _ => VariantTag.Primary
  | .Replica _ => VariantTag.Replica
  | .Schema _ => VariantTag.Schema

/-- Tag of a server connection. -/
def Connection.tag {B R : Type} : Connection B R → VariantTag
  | .Primary _ => VariantTag.Primary
  | .Replica _ => VariantTag.Replica
  | .Schema _ => VariantTag.Schema

/-- A concrete capability record used to evaluate the theorems on closed
inputs. -/
def sampleOps : ConnOps Unit Unit where
  execute_program := fun _ _ b _ => Except.ok b
  describe := fun _ _ _ => Except.ok (Except.ok { params := [] })
  is_autocommit := Except.ok true
  checkpoint := Except.ok ()
  vacuum_if_needed := Except.ok ()
  diagnostics := ""
  with_raw := fun f => f { id := 0 }

/-- A concrete WAL wrapper whose latest published frame number is 0. -/
def sampleWal : WalWrapper :=
  { wrapper := { logger := { new_frame_notifier := { current := some 0 } } } }

/-- A concrete primary server database. -/
def sampleDbP : PrimaryDatabase Unit Unit where
  wal_wrapper := sampleWal
  block_writes := false
  replicator_res := none
  make := Except.ok { ops := sampleOps }

/-- A concrete replica server database. -/
def sampleDbR : ReplicaDatabase Unit Unit where
  make := Except.ok { ops := sampleOps }

/-- A concrete schema server database with its WAL wrapper present. -/
def sampleDbS : SchemaDatabase Unit Unit where
  wal_wrapper := some sampleWal
  new_frame_notifier := { current := some 0 }
  replicator_res := none
  make := Except.ok { ops := sampleOps }

end SqldServer

namespace LibsqlClient

/-- A concrete replication writer. -/
def sampleWriter : Writer := { id := 0 }

/-- A concrete local connection that has a writer. -/
def sampleLocalConn : LocalConn := { id := 0, writer := some sampleWriter }

/-- A concrete local database whose operations all succeed. -/
def sampleLocalDb : LocalDatabase where
  syncRes := Except.ok 0
  syncFramesRes := fun _ => Except.ok 0
  connectRes := Except.ok sampleLocalConn

/-- A concrete environment whose local open always succeeds. -/
def sampleEnv : LocalEnv where
  localOpen := fun _ _ => Except.ok sampleLocalDb

end LibsqlClient

namespace Sqlite3Parser

/-- A concrete parser context with a pending statement and a pending plain
EXPLAIN kind. -/
def sampleCtx : Context :=
  { input := [1, 2]
    explain := some ExplainKind.Explain
    stmt := some { id := 7 }
    constraint_name := none
    module_arg := none
    module_args := none
    done := false
    error := none }

/-- A concrete parser context with no pending statement. -/
def sampleCtxNoStmt : Context := Context.new [1, 2]

end Sqlite3Parser

namespace Sqlite3Parser

/-- Claim C7: the SQL-parsing collaborator's `ParserError` type has exactly
the variants `StackOverflow`, `SyntaxError` (carrying the offending token
type and the optionally-found text), `UnexpectedEof`, and `Custom` (carrying
a message string), and no other failure kind. -/
theorem parser_error_exactly_four_kinds :
    ∀ e : ParserError,
      e = ParserError.StackOverflow ∨
      (∃ token_type found, e = ParserError.SyntaxError token_type found) ∨
      e = ParserError.UnexpectedEof ∨
      (∃ msg, e = ParserError.Custom msg) := by
  intro e
  cases e with
  | StackOverflow => exact Or.inl rfl
  | SyntaxError t f => exact Or.inr (Or.inl ⟨t, f, rfl⟩)
  | UnexpectedEof => exact Or.inr (Or.inr (Or.inl rfl))
  | Custom m => exact Or.inr (Or.inr (Or.inr ⟨m, rfl⟩))

/-- Claim C8: `Context.cmd` is consuming and wraps the pending statement by
the pending explain kind — `Cmd.Explain` for `Explain`, `Cmd.ExplainQueryPlan`
for `QueryPlan`, `Cmd.Stmt` when no explain kind is set — clearing both
fields so an immediately following second call returns `none`; with no
pending statement it returns `none` and leaves the context unchanged. -/
theorem context_cmd_consumes_pending_statement :
    ∀ c : Context,
      (∀ s : Stmt, c.stmt = some s →
        c.cmd.1 = some (match c.explain with
          | some ExplainKind.Explain => Cmd.Explain s
          | some ExplainKind.QueryPlan => Cmd.ExplainQueryPlan s
          | none => Cmd.Stmt s) ∧
        c.cmd.2.stmt = none ∧
        c.cmd.2.explain = none ∧
        c.cmd.2.cmd.1 = none ∧
        c.cmd.2.input = c.input) ∧
      (c.stmt = none → c.cmd = (none, c)) := by
  intro c
  refine ⟨?_, ?_⟩
  · intro s hs
    cases hexp : c.explain with
    | none =>
      have h1 : c.cmd = (some (Cmd.Stmt s), { c with stmt := none, explain := none }) := by
        unfold Context.cmd
        rw [hs, hexp]
      rw [h1]
      simp [Context.cmd, hexp]
    | some k =>
      cases k with
      | Explain =>
        have h1 : c.cmd =
            (some (Cmd.Explain s), { c with stmt := none, explain := none }) := by
          unfold Context.cmd
          rw [hs, hexp]
        rw [h1]
        simp [Context.cmd, hexp]
      | QueryPlan =>
        have h1 : c.cmd =
            (some (Cmd.ExplainQueryPlan s), { c with stmt := none, explain := none }) := by
          unfold Context.cmd
          rw [hs, hexp]
        rw [h1]
        simp [Context.cmd, hexp]
  · intro h
    unfold Context.cmd
    rw [h]

/-- Witness for claim C8: evaluated on a context holding statement 7 under a
plain EXPLAIN, and on a context with no pending statement. -/
theorem context_cmd_consumes_pending_statement_witness :
    (sampleCtx.cmd.1 = some (Cmd.Explain { id := 7 }) ∧
      sampleCtx.cmd.2.stmt = none ∧
      sampleCtx.cmd.2.explain = none ∧
      sampleCtx.cmd.2.cmd.1 = none ∧
      sampleCtx.cmd.2.input = sampleCtx.input) ∧
    sampleCtxNoStmt.cmd = (none, sampleCtxNoStmt) := by
  constructor
  · exact (context_cmd_consumes_pending_statement sampleCtx).1 { id := 7 } rfl
  · exact (context_cmd_consumes_pending_statement sampleCtxNoStmt).2 rfl

/-- Claim C9: after `reset`, a parser context is observationally (indeed
structurally) equal to `Context.new` on the same input: `done` is false,
`is_ok` is true, `cmd` and `error` yield `none`, and the input slice is
unchanged. -/
theorem context_reset_equals_new :
    ∀ c : Context,
      c.reset = Context.new c.input ∧
      c.reset.isDone = false ∧
      c.reset.is_ok = true ∧
      c.reset.cmd.1 = none ∧
      c.reset.errorTake.1 = none ∧
      c.reset.input = c.input := by
  intro c
  exact ⟨rfl, rfl, rfl, rfl, rfl, rfl⟩

end Sqlite3Parser

namespace LibsqlClient

/-- Claim C10: `Database::open` constructs the same database as
`open_with_flags` with `SQLITE_OPEN_READ_WRITE | SQLITE_OPEN_CREATE`, and
that flag combination is the `Default` value of `OpenFlags`. -/
theorem open_uses_default_flags :
    ∀ db_path : String,
      Database.openPath db_path =
        Database.open_with_flags db_path
          (OpenFlags.or OpenFlags.SQLITE_OPEN_READ_WRITE OpenFlags.SQLITE_OPEN_CREATE) ∧
      OpenFlags.default =
        OpenFlags.or OpenFlags.SQLITE_OPEN_READ_WRITE OpenFlags.SQLITE_OPEN_CREATE := by
  intro db_path
  exact ⟨rfl, rfl⟩

/-- Claim C2: on every database whose variant is not `Sync`, both `sync` and
`sync_frames` return the `SyncNotSupported` error built from the debug format
of the database type, without aborting (no branch of either function can
abort) and with the database value unchanged. -/
theorem sync_unsupported_on_non_sync :
    ∀ db : Database, db.db_type.isSync = false →
      db.sync = (Except.error (Error.SyncNotSupported db.db_type.debugFmt), db) ∧
      ∀ frames : Frames,
        db.sync_frames frames =
          (Except.error (Error.SyncNotSupported db.db_type.debugFmt), db) := by
  intro db h
  obtain ⟨dt⟩ := db
  cases dt with
  | Memory => exact ⟨rfl, fun _ => rfl⟩
  | File p fl => exact ⟨rfl, fun _ => rfl⟩
  | Sync d => simp [DbType.isSync] at h
  | Remote u t cn => exact ⟨rfl, fun _ => rfl⟩

/-- Witness for claim C2: evaluated on the in-memory database with the empty
frames-batch. -/
theorem sync_unsupported_on_non_sync_witness :
    ({ db_type := DbType.Memory } : Database).sync =
      (Except.error (Error.SyncNotSupported "Memory"),
        ({ db_type := DbType.Memory } : Database)) ∧
    ({ db_type := DbType.Memory } : Database).sync_frames { frames := [] } =
      (Except.error (Error.SyncNotSupported "Memory"),
        ({ db_type := DbType.Memory } : Database)) := by
  have h := sync_unsupported_on_non_sync { db_type := DbType.Memory } rfl
  exact ⟨h.1, h.2 { frames := [] }⟩

/-- Claim C1 (failing-input evaluation): `open_with_local_sync` as written
constructs a `File`-variant database, not a `Sync` one, so `sync()` on the
database it returns fails with `SyncNotSupported` instead of dispatching to a
wrapped sync client. -/
theorem open_with_local_sync_yields_file_variant :
    ∃ db : Database,
      Database.open_with_local_sync "local.db" = Except.ok db ∧
      db.db_type.isSync = false ∧
      db.db_type.debugFmt = "File" ∧
      db.sync.1 = Except.error (Error.SyncNotSupported "File") :=
  ⟨{ db_type := DbType.File "local.db" OpenFlags.default }, rfl, rfl, rfl, rfl⟩

end LibsqlClient

namespace SqldServer

/-- Claim C3: `logger` and `notifier` return a present value for the Primary
and Schema variants (for Schema under the spec-modelled invariant that its
WAL wrapper is present, which is what the source's unwrap assumes) and
return absence for Replica; `replicator` likewise returns `none` for
Replica. Unsupported variants yield absence, not an error, and no supported
branch aborts. -/
theorem capability_accessors_by_variant :
    ∀ (B R : Type) (p : PrimaryDatabase B R) (r : ReplicaDatabase B R)
      (s : SchemaDatabase B R), s.wf →
      (∃ l, (Database.Primary p).logger = some (some l)) ∧
      (∃ n, (Database.Primary p).notifier = some n) ∧
      (Database.Replica r).logger = some none ∧
      (Database.Replica r).notifier = none ∧
      (Database.Replica r).replicator = none ∧
      (∃ l, (Database.Schema s).logger = some (some l)) ∧
      (∃ n, (Database.Schema s).notifier = some n) := by
  intro B R p r s hwf
  refine ⟨⟨p.wal_wrapper.wrapper.logger, rfl⟩, ⟨_, rfl⟩, rfl, rfl, rfl, ?_,
    ⟨s.new_frame_notifier, rfl⟩⟩
  obtain ⟨w, hw⟩ := Option.isSome_iff_exists.mp hwf
  exact ⟨w.wrapper.logger, by simp [Database.logger, hw]⟩

/-- Witness for claim C3: evaluated on the concrete primary, replica, and
schema databases. -/
theorem capability_accessors_by_variant_witness :
    (∃ l, (Database.Primary sampleDbP).logger = some (some l)) ∧
    (∃ n, (Database.Primary sampleDbP).notifier = some n) ∧
    (Database.Replica sampleDbR).logger = some none ∧
    (Database.Replica sampleDbR).notifier = none ∧
    (Database.Replica sampleDbR).replicator = none ∧
    (∃ l, (Database.Schema sampleDbS).logger = some (some l)) ∧
    (∃ n, (Database.Schema sampleDbS).notifier = some n) :=
  capability_accessors_by_variant Unit Unit sampleDbP sampleDbR sampleDbS rfl

/-- Claim C4: for every server `Connection` variant and every operation of
the capability interface, the dispatching wrapper returns exactly the result
of the same operation with the same arguments on the wrapped inner
connection. -/
theorem connection_dispatch_structural :
    ∀ (B R : Type) (pc : PrimaryConnection B R) (rc : ReplicaConnection B R)
      (sc : SchemaConnection B R) (pgm : Program) (ctx : RequestContext)
      (b : B) (ri : Option FrameNo) (sql : String) (f : RawConn → R),
      (Connection.Primary pc).execute_program pgm ctx b ri =
        pc.ops.execute_program pgm ctx b ri ∧
      (Connection.Replica rc).execute_program pgm ctx b ri =
        rc.ops.execute_program pgm ctx b ri ∧
      (Connection.Schema sc).execute_program pgm ctx b ri =
        sc.ops.execute_program pgm ctx b ri ∧
      (Connection.Primary pc).describe sql ctx ri = pc.ops.describe sql ctx ri ∧
      (Connection.Replica rc).describe sql ctx ri = rc.ops.describe sql ctx ri ∧
      (Connection.Schema sc).describe sql ctx ri = sc.ops.describe sql ctx ri ∧
      (Connection.Primary pc).is_autocommit = pc.ops.is_autocommit ∧
      (Connection.Replica rc).is_autocommit = rc.ops.is_autocommit ∧
      (Connection.Schema sc).is_autocommit = sc.ops.is_autocommit ∧
      (Connection.Primary pc).checkpoint = pc.ops.checkpoint ∧
      (Connection.Replica rc).checkpoint = rc.ops.checkpoint ∧
      (Connection.Schema sc).checkpoint = sc.ops.checkpoint ∧
      (Connection.Primary pc).vacuum_if_needed = pc.ops.vacuum_if_needed ∧
      (Connection.Replica rc).vacuum_if_needed = rc.ops.vacuum_if_needed ∧
      (Connection.Schema sc).vacuum_if_needed = sc.ops.vacuum_if_needed ∧
      (Connection.Primary pc).diagnostics = pc.ops.diagnostics ∧
      (Connection.Replica rc).diagnostics = rc.ops.diagnostics ∧
      (Connection.Schema sc).diagnostics = sc.ops.diagnostics ∧
      (Connection.Primary pc).with_raw f = pc.ops.with_raw f ∧
      (Connection.Replica rc).with_raw f = rc.ops.with_raw f ∧
      (Connection.Schema sc).with_raw f = sc.ops.with_raw f := by
  intro B R pc rc sc pgm ctx b ri sql f
  exact ⟨rfl, rfl, rfl, rfl, rfl, rfl, rfl, rfl, rfl, rfl, rfl, rfl, rfl, rfl,
    rfl, rfl, rfl, rfl, rfl, rfl, rfl⟩

/-- Claim C6: `diagnostics` is total on every server `Connection` variant and
never fails — it delegates to the inner connection's plain-`String`
diagnostics with no error branch, so viewed in the fallible-result shape of
the other operations its outcome is always `Except.ok`. -/
theorem diagnostics_total_never_fails :
    ∀ (B R : Type) (pc : PrimaryConnection B R) (rc : ReplicaConnection B R)
      (sc : SchemaConnection B R) (c : Connection B R),
      Connection.diagnostics (Connection.Primary pc) = pc.ops.diagnostics ∧
      Connection.diagnostics (Connection.Replica rc) = rc.ops.diagnostics ∧
      Connection.diagnostics (Connection.Schema sc) = sc.ops.diagnostics ∧
      (∃ s : String, Connection.diagnosticsResult c = Except.ok s ∧
        Connection.diagnostics c = s) := by
  intro B R pc rc sc c
  exact ⟨rfl, rfl, rfl, ⟨c.diagnostics, rfl, rfl⟩⟩

end SqldServer

/-- Claim C5: the connection each database manufactures matches the variant
tag fixed at construction — the server `connection_maker` wraps each
variant's maker output in the matching `Connection` constructor, the client
`connect` produces the connection implementation determined by `db_type`,
and `db_type` is not mutated by the sync operations. -/
theorem connection_construction_matches_variant :
    (∀ (B R : Type) (db : SqldServer.Database B R) (c : SqldServer.Connection B R),
        db.connection_maker = Except.ok c → c.tag = db.tag) ∧
    (∀ (env : LibsqlClient.LocalEnv) (db : LibsqlClient.Database)
        (c : LibsqlClient.Connection),
        LibsqlClient.Database.connect env db = some (Except.ok c) →
          c.conn.kind = db.db_type.expectedKind) ∧
    (∀ db : LibsqlClient.Database,
        db.sync.2.db_type = db.db_type ∧
        ∀ frames, (db.sync_frames frames).2.db_type = db.db_type) := by
  refine ⟨?_, ?_, ?_⟩
  · intro B R db c h
    cases db with
    | Primary d =>
      cases hm : d.make with
      | error e => simp [SqldServer.Database.connection_maker, hm, Except.map] at h
      | ok a =>
        simp [SqldServer.Database.connection_maker, hm, Except.map] at h
        subst h
        rfl
    | Replica d =>
      cases hm : d.make with
      | error e => simp [SqldServer.Database.connection_maker, hm, Except.map] at h
      | ok a =>
        simp [SqldServer.Database.connection_maker, hm, Except.map] at h
        subst h
        rfl
    | Schema d =>
      cases hm : d.make with
      | error e => simp [SqldServer.Database.connection_maker, hm, Except.map] at h
      | ok a =>
        simp [SqldServer.Database.connection_maker, hm, Except.map] at h
        subst h
        rfl
  · intro env db c h
    obtain ⟨dt⟩ := db
    obtain ⟨ci⟩ := c
    cases dt with
    | Memory =>
      cases ho : env.localOpen ":memory:" LibsqlClient.OpenFlags.default with
      | error e => simp [LibsqlClient.Database.connect, ho] at h
      | ok ldb =>
        cases hc : ldb.connectRes with
        | error e => simp [LibsqlClient.Database.connect, ho, hc] at h
        | ok conn =>
          simp [LibsqlClient.Database.connect, ho, hc] at h
          subst h
          rfl
    | File path flags =>
      cases ho : env.localOpen path flags with
      | error e => simp [LibsqlClient.Database.connect, ho] at h
      | ok ldb =>
        cases hc : ldb.connectRes with
        | error e => simp [LibsqlClient.Database.connect, ho, hc] at h
        | ok conn =>
          simp [LibsqlClient.Database.connect, ho, hc] at h
          subst h
          rfl
    | Sync d =>
      cases hc : d.connectRes with
      | error e => simp [LibsqlClient.Database.connect, hc] at h
      | ok conn =>
        cases hw : conn.writer with
        | none => simp [LibsqlClient.Database.connect, hc, hw] at h
        | some w =>
          simp [LibsqlClient.Database.connect, hc, hw] at h
          subst h
          rfl
    | Remote url tok cn =>
      simp [LibsqlClient.Database.connect] at h
      subst h
      rfl
  · intro db
    obtain ⟨dt⟩ := db
    cases dt with
    | Memory => exact ⟨rfl, fun _ => rfl⟩
    | File p fl => exact ⟨rfl, fun _ => rfl⟩
    | Sync d => exact ⟨rfl, fun _ => rfl⟩
    | Remote u t cn => exact ⟨rfl, fun _ => rfl⟩

/-- Witness for claim C5: evaluated on a concrete primary server database and
on the concrete in-memory client database. -/
theorem connection_construction_matches_variant_witness :
    (SqldServer.Connection.Primary { ops := SqldServer.sampleOps } :
        SqldServer.Connection Unit Unit).tag =
      (SqldServer.Database.Primary SqldServer.sampleDbP).tag ∧
    ({ conn := LibsqlClient.ConnImpl.Libsql LibsqlClient.sampleLocalConn } :
        LibsqlClient.Connection).conn.kind =
      ({ db_type := LibsqlClient.DbType.Memory } :
        LibsqlClient.Database).db_type.expectedKind :=
  ⟨connection_construction_matches_variant.1 Unit Unit
      (SqldServer.Database.Primary SqldServer.sampleDbP)
      (SqldServer.Connection.Primary { ops := SqldServer.sampleOps }) rfl,
    connection_construction_matches_variant.2.1 LibsqlClient.sampleEnv
      { db_type := LibsqlClient.DbType.Memory }
      { conn := LibsqlClient.ConnImpl.Libsql LibsqlClient.sampleLocalConn } rfl⟩
